import Mathlib

/-!
Verification of the chess-coach backend (Python sources under backend/app/).

The development shallowly embeds the components the claims speak about:

* `classify_move_quality_from_swing`  (analysis.py)
* `update_mental_signals_after_move`  (analysis.py)
* `parse_agent_report` and its helpers (agent.py)
* `run_coach_agent`                   (agent.py)
* the session endpoints `new_game`, `make_move`, `undo` (main.py, session.py)

Python strings are modelled as Lean `String` / `List Char`; Python `int` as
`Int`; `None` as `Option.none`.  The regular expressions in agent.py are
hand-translated: each helper below carries a comment naming the regex it
models, and the translation is justified there.  The external chess library
(python-chess) and the Stockfish engine are collaborators, not part of this
repository; they are abstracted by the `ChessLib` structure whose `parseUci`,
`isLegal`, `isGameOver`, `botMove` and `runAgent` fields stand for
`Board.parse_uci`, membership in `Board.legal_moves`, `Board.is_game_over`,
`StockfishEngine.get_bot_move` and the LangChain agent invocation.  A
python-chess `Board` is abstracted as its move stack (the list of moves pushed
since the initial position): every observable of a board is a pure function of
that stack, so facts proved about the stack transfer to the real board.
-/

/- ===================== Python string primitives ===================== -/

/-- Python `str.isspace` characters, restricted to ASCII (the inputs the
backend handles are ASCII report text; `str.strip()` on them only ever
removes these characters). -/
def isPySpace (c : Char) : Bool :=
  c == ' ' || c == '\t' || c == '\n' || c == '\r' || c == '\x0b' || c == '\x0c'

/-- Characters removed by Python `strip("- ")`. -/
def isDashSpace (c : Char) : Bool :=
  c == '-' || c == ' '

/-- Strip characters satisfying `p` from both ends (Python `str.strip(chars)`). -/
def stripChars (p : Char → Bool) (l : List Char) : List Char :=
  ((l.dropWhile p).reverse.dropWhile p).reverse

/-- Python `str.strip()` (whitespace both ends). -/
def pyStrip (s : String) : String :=
  ⟨stripChars isPySpace s.data⟩

/-- Python `str.lower()` (ASCII model). -/
def pyLower (s : String) : String :=
  ⟨s.data.map Char.toLower⟩

/-- Does `needle` occur as a prefix of `hay`? -/
def isPrefixL : List Char → List Char → Bool
  | [], _ => true
  | _ :: _, [] => false
  | a :: as, b :: bs => a == b && isPrefixL as bs

/-- The suffix of `l` that follows the first occurrence of `needle`
(`none` when `needle` does not occur).  Models Python
`text.find(needle)` / `re.search` on a literal pattern, and
`text.split(needle, 1)[1]`. -/
def afterFirst (needle : List Char) (l : List Char) : Option (List Char) :=
  if isPrefixL needle l then some (l.drop needle.length)
  else
    match l with
    | [] => none
    | _ :: t => afterFirst needle t

/-- The prefix of `l` up to (excluding) the first position whose suffix
satisfies `p`; the whole list when no position does.  Models a lazy
capture `(.*?)` bounded by a lookahead. -/
def takeUntil (p : List Char → Bool) (l : List Char) : List Char :=
  if p l then []
  else
    match l with
    | [] => []
    | c :: t => c :: takeUntil p t

/- ===================== agent.py: report parser helpers ===================== -/

/-- Tail of a candidate section header: inside `\n[` we have seen one or more
`[A-Z_]` characters and now need more of them followed by `]`. -/
def headerTail : List Char → Bool
  | [] => false
  | c :: t =>
    if c == ']' then true
    else if ('A' ≤ c && c ≤ 'Z') || c == '_' then headerTail t
    else false

/-- Does the suffix start with `\n[[A-Z_]+]`?  This is the lookahead
`(?=\n\[[A-Z_]+\])` that bounds a section in `_section` (agent.py). -/
def sectionHeaderAt : List Char → Bool
  | '\n' :: '[' :: c :: t => (('A' ≤ c && c ≤ 'Z') || c == '_') && headerTail t
  | _ => false

/-- Model of `_section(text, tag)` (agent.py):
`re.search(rf"\[{tag}\]\s*(.*?)(?=\n\[[A-Z_]+\]|\Z)", text, re.S)`.
The pattern can only match at an occurrence of the literal `[tag]`, and after
one the remainder always matches, so `re.search` matches at the first
occurrence; the greedy `\s*` takes maximal whitespace (never backtracked,
since the lazy capture can always reach `\Z`); the lazy capture then extends
to the first position where `\n[[A-Z_]+]` starts, or to the end.  The result
is `.strip()`-ed; a failed search yields `""`. -/
def sectionOf (text : List Char) (tag : List Char) : List Char :=
  match afterFirst ('[' :: (tag ++ [']'])) text with
  | none => []
  | some rest => stripChars isPySpace (takeUntil sectionHeaderAt (rest.dropWhile isPySpace))

/-- Model of `re.search(rf"{start}\s*(.*?)(?={stop}|\Z)", block, re.S)` for
literal `start`/`stop` (the `Eval:`/`Why:`/`Immediate Threats:`/`Plans`
extractions and the `Actionable:` extraction in agent.py): match at the first
occurrence of `start`, skip maximal whitespace, capture lazily up to the
first occurrence of `stop` or the end. -/
def captureTo (block start stop : List Char) : Option (List Char) :=
  (afterFirst start block).map fun rest =>
    takeUntil (fun suf => isPrefixL stop suf) (rest.dropWhile isPySpace)

/-- Model of `re.search(rf"{start}\s*(.*)", block)` WITHOUT `re.S`
(the `Label:` extraction): after the first occurrence of `start` and maximal
whitespace, capture up to the next newline or the end. -/
def captureLine (block start : List Char) : Option (List Char) :=
  (afterFirst start block).map fun rest =>
    takeUntil (fun suf => match suf with | c :: _ => c == '\n' | [] => false)
      (rest.dropWhile isPySpace)

/-- Model of `re.search(rf"{start}.*?:\s*(.*?)(?={stop}|\Z)", block, re.S)`
(the `Inference` extraction): the lazy `.*?:` runs from after the first
occurrence of `start` to the first `:` after it (if the first occurrence has
no following colon then no later one has, so the search fails), then maximal
whitespace, then a lazy capture bounded by `stop` or the end. -/
def captureColonTo (block start stop : List Char) : Option (List Char) :=
  (afterFirst start block).bind fun rest1 =>
    (afterFirst [':'] rest1).map fun rest2 =>
      takeUntil (fun suf => isPrefixL stop suf) (rest2.dropWhile isPySpace)

/-- Model of `re.search(rf"{start}.*?:\s*(.*)", block, re.S)` (the
`Short PV` extraction) and of `re.search(rf"{start}\s*(.*)", block, re.S)`
(the `10s Micro-Reset Tip:` extraction, with `start` ending in the colon):
the greedy dot-all capture takes everything after the maximal whitespace. -/
def captureRest (block start : List Char) : Option (List Char) :=
  (afterFirst start block).map fun rest => rest.dropWhile isPySpace

/-- Split on `'\n'`.  Models Python `str.splitlines()` for the callers below:
splitlines also handles `\r`-style breaks and drops a final empty line, but
both differences only produce extra blank lines here, and blank lines yield
no bullets. -/
def splitLines : List Char → List (List Char)
  | [] => [[]]
  | c :: t =>
    if c == '\n' then [] :: splitLines t
    else
      match splitLines t with
      | [] => [[c]]
      | h :: r => (c :: h) :: r

/-- Model of `_bullets(block)` (agent.py): for each line, strip it, keep lines
starting with `"- "`, take the text after the marker, strip it, and drop
empties. -/
def pyBullets (block : List Char) : List String :=
  (splitLines block).filterMap fun line =>
    let t := stripChars isPySpace line
    if isPrefixL ['-', ' '] t then
      let b := stripChars isPySpace (t.drop 2)
      if b.isEmpty then none else some ⟨b⟩
    else none

/-- The rest of a stripped line after a `^\d+\)\s+` prefix, when it has one.
Greedy `\d+` must be followed by `)`, so backtracking inside `\d+` never
succeeds and "maximal digits then `)`" is exact. -/
def numPrefixRest (l : List Char) : Option (List Char) :=
  match l with
  | c :: _ =>
    if c.isDigit then
      match l.dropWhile Char.isDigit with
      | ')' :: rest =>
        match rest with
        | d :: _ => if isPySpace d then some (rest.dropWhile isPySpace) else none
        | [] => none
      | _ => none
    else none
  | [] => none

/-- Model of `_numbered(block)` (agent.py): lines of the form `<n>) text`,
with the numbering stripped. -/
def pyNumbered (block : List Char) : List String :=
  (splitLines block).filterMap fun line =>
    let t := stripChars isPySpace line
    match numPrefixRest t with
    | none => none
    | some rest =>
      let b := stripChars isPySpace rest
      if b.isEmpty then none else some ⟨b⟩

/-- The `.strip().strip("- ").strip()` post-processing applied to captured
tokens (label, eval, tip, pv) in agent.py. -/
def cleanToken (l : List Char) : String :=
  ⟨stripChars isPySpace (stripChars isDashSpace (stripChars isPySpace l))⟩

/- ===================== models.py: agent output shape ===================== -/

structure CoachOutput where
  move_quality : String
  bullets : List String
  pv : Option String
deriving Repr, DecidableEq

structure MentalOutput where
  observed_signals : List String
  inference : String
  micro_reset_tip : String
deriving Repr, DecidableEq

/-- `plans` is a dict keyed by exactly `"white"` and `"black"` in the source;
modelled as two fields. -/
structure PositionOutput where
  eval : String
  why : List String
  threats : List String
  plans_white : List String
  plans_black : List String
deriving Repr, DecidableEq

structure AgentOutput where
  coach : CoachOutput
  mental : MentalOutput
  position : PositionOutput
  raw_text : Option String
deriving Repr, DecidableEq

/- ===================== agent.py: parse_agent_report ===================== -/

/-- The closed five-value move-quality vocabulary (`allowed` in agent.py). -/
def allowedLabels : List String := ["Best", "Good", "Inaccuracy", "Mistake", "Blunder"]

/-- The token extracted for the move-quality label, before normalization:
`_section(text, "MOVE_QUALITY")`, then `re.search(r"Label:\s*(.*)", quality)`,
then `.strip().strip("- ").strip()`.  `none` when the section is empty or the
search fails. -/
def labelCandidate (text : String) : Option String :=
  let quality := sectionOf text.data "MOVE_QUALITY".data
  if quality.isEmpty then none
  else (captureLine quality "Label:".data).map cleanToken

/-- The normalized move-quality label: starts as `"Good"`, replaced by the
extracted token, and put back to `"Good"` when the token is not in the closed
enumeration. -/
def moveQualityLabel (text : String) : String :=
  match labelCandidate text with
  | none => "Good"
  | some l => if l ∈ allowedLabels then l else "Good"

/-- The `Actionable:` bullets of the `[COACHING]` section: numbered lines
first, bulleted lines as fallback (before the `[:3]` cap). -/
def coachBullets (text : String) : List String :=
  let coaching := sectionOf text.data "COACHING".data
  if coaching.isEmpty then []
  else
    match captureTo coaching "Actionable:".data "\nShort PV".data with
    | none => []
    | some cap =>
      let n := pyNumbered cap
      if n.isEmpty then pyBullets cap else n

/-- The `Short PV` value of the `[COACHING]` section
(`re.search(r"Short PV.*?:\s*(.*)", coaching, re.S)` plus token cleaning). -/
def coachPv (text : String) : Option String :=
  let coaching := sectionOf text.data "COACHING".data
  if coaching.isEmpty then none
  else
    match (afterFirst "Short PV".data coaching).bind (afterFirst [':']) with
    | none => none
    | some rest => some (cleanToken (rest.dropWhile isPySpace))

/-- The prefix of `l` before the first occurrence of `Inference` preceded by a
non-word character (or the start): `re.split(r"\bInference", l, 1)[0]`.
`prev` is the character just before the current suffix. -/
def beforeWordInference (prev : Option Char) : List Char → List Char
  | [] => []
  | c :: t =>
    if isPrefixL "Inference".data (c :: t)
        && (match prev with
            | none => true
            | some p => !(p.isAlphanum || p == '_')) then []
    else c :: beforeWordInference (some c) t

/-- The `[MENTAL_STATE_CHECK]` block of `parse_agent_report`: observed-signal
bullets (text between `Observed Signals:` and the first word-boundary
`Inference`, per `re.split(r"\bInference", after, 1)`), the inference
sentence and the micro-reset tip, each defaulting to a fixed neutral
sentence when empty. -/
def mentalPart (text : String) : MentalOutput :=
  let mental := sectionOf text.data "MENTAL_STATE_CHECK".data
  let obs : List String :=
    if mental.isEmpty then []
    else
      match afterFirst "Observed Signals:".data mental with
      | none => []
      | some after => pyBullets (beforeWordInference none after)
  let inference : String :=
    if mental.isEmpty then ""
    else
      match captureColonTo mental "Inference".data "10s Micro-Reset Tip:".data with
      | none => ""
      | some cap =>
        ⟨stripChars isPySpace (stripChars isDashSpace
          ((stripChars isPySpace cap).map fun c => if c == '\n' then ' ' else c))⟩
  let tip : String :=
    if mental.isEmpty then ""
    else
      match captureRest mental "10s Micro-Reset Tip:".data with
      | none => ""
      | some cap => cleanToken cap
  { observed_signals := obs
    inference := if inference.isEmpty then "Uncertain; monitor focus and time usage." else inference
    micro_reset_tip :=
      if tip.isEmpty then
        "Take one deep breath, relax shoulders, and pick one plan for the next move."
      else tip }

/-- The `[POSITION_SNAPSHOT]` block of `parse_agent_report`: eval line
(defaulting to `"unknown"`), why/threat bullets and the per-side plans. -/
def positionPart (text : String) : PositionOutput :=
  let pos := sectionOf text.data "POSITION_SNAPSHOT".data
  let evalLine : String :=
    if pos.isEmpty then ""
    else
      match captureTo pos "Eval:".data "\nWhy:".data with
      | none => ""
      | some cap => cleanToken cap
  let why : List String :=
    if pos.isEmpty then []
    else
      match captureTo pos "Why:".data "\nImmediate Threats:".data with
      | none => []
      | some cap => pyBullets cap
  let threats : List String :=
    if pos.isEmpty then []
    else
      match captureTo pos "Immediate Threats:".data "\nPlans (White):".data with
      | none => []
      | some cap => pyBullets cap
  let pw : List String :=
    if pos.isEmpty then []
    else
      match captureTo pos "Plans (White):".data "\nPlans (Black):".data with
      | none => []
      | some cap => pyBullets cap
  let pb : List String :=
    if pos.isEmpty then []
    else
      match captureTo pos "Plans (Black):".data "\n".data with
      | none => []
      | some cap => pyBullets cap
  { eval := if evalLine.isEmpty then "unknown" else evalLine
    why := why, threats := threats, plans_white := pw, plans_black := pb }

/-- `parse_agent_report(text)` (agent.py): total by construction; assembles
the structured report, caps coaching bullets at 3 and retains the raw text. -/
def parse_agent_report (text : String) : AgentOutput :=
  { coach :=
      { move_quality := moveQualityLabel text
        bullets := (coachBullets text).take 3
        pv := coachPv text }
    mental := mentalPart text
    position := positionPart text
    raw_text := some text }

/- ===================== analysis.py ===================== -/

/-- `MoveQuality` dataclass (analysis.py). -/
structure MoveQuality where
  label : String
  swing_cp : Option Int
deriving Repr, DecidableEq

/-- `classify_move_quality_from_swing(eval_before_cp, eval_after_cp)`
(analysis.py): either input absent yields Good with no swing; otherwise
`swing = after - before` is classified by the inclusive thresholds
`>= -30` Good, `-90..-31` Inaccuracy, `-200..-91` Mistake, else Blunder. -/
def classify_move_quality_from_swing (eval_before_cp eval_after_cp : Option Int) : MoveQuality :=
  match eval_before_cp, eval_after_cp with
  | some b, some a =>
    let swing := a - b
    if swing ≥ -30 then ⟨"Good", some swing⟩
    else if -90 ≤ swing ∧ swing ≤ -31 then ⟨"Inaccuracy", some swing⟩
    else if -200 ≤ swing ∧ swing ≤ -91 then ⟨"Mistake", some swing⟩
    else ⟨"Blunder", some swing⟩
  | _, _ => ⟨"Good", none⟩

/-- `update_mental_signals_after_move(...)` (analysis.py): returns
`(new_blunder_streak, rapid_after_blunder)`.  The rapid flag needs the
previous move to have been a blunder and a present think time `<= 1500`;
an absent quality leaves the streak unchanged; otherwise the label is
`.strip()`-ed and compared against the two label groups. -/
def update_mental_signals_after_move (move_quality : Option String)
    (think_time_ms : Option Int) (last_move_was_blunder : Bool)
    (current_blunder_streak : Int) : Int × Bool :=
  let rapid : Bool :=
    last_move_was_blunder &&
      (match think_time_ms with
       | some t => decide (t ≤ 1500)
       | none => false)
  match move_quality with
  | none => (current_blunder_streak, rapid)
  | some mq =>
    let q := pyStrip mq
    if q = "Blunder" ∨ q = "Mistake" then (current_blunder_streak + 1, rapid)
    else if q = "Good" ∨ q = "Best" ∨ q = "Inaccuracy" then (0, rapid)
    else (current_blunder_streak, rapid)

/- ===================== agent.py: run_coach_agent ===================== -/

/-- The canned degraded-condition text returned when `OPENAI_API_KEY` is
absent (`run_coach_agent`, agent.py). -/
def missingKeyRaw : String :=
  "[MENTAL_STATE_CHECK]\n" ++
  "Observed Signals:\n" ++
  "- OPENAI_API_KEY missing\n" ++
  "Inference (non-medical, uncertain):\n" ++
  "- Coaching disabled until key is set\n" ++
  "10s Micro-Reset Tip:\n" ++
  "- Set OPENAI_API_KEY and restart backend\n\n" ++
  "[POSITION_SNAPSHOT]\n" ++
  "Eval:\n- unknown\n" ++
  "Why:\n- engine unavailable\n" ++
  "Immediate Threats:\n- unknown\n" ++
  "Plans (White):\n- develop pieces\n" ++
  "Plans (Black):\n- develop pieces\n\n" ++
  "[MOVE_QUALITY]\n" ++
  "Label:\n- Good\n" ++
  "Reason:\n- no engine eval available\n\n" ++
  "[COACHING]\n" ++
  "Actionable:\n" ++
  "- 1) Set OPENAI_API_KEY\n" ++
  "Short PV (4-8 ply max):\n" ++
  "- \n\n" ++
  "[BOT_MOVE]\n" ++
  "Explain:\n- \n" ++
  "Next-turn checklist:\n- \n"

/-- Outcome of the external LangChain call chain in `run_coach_agent`
(`ChatOpenAI(...)`, `create_agent(...)`, `agent.invoke(...)`): either the
final text obtained from the result (the `try` around
`result["messages"][-1].content` cannot fail in the model, so extracting a
text is always possible when the call returns), or a raised exception. -/
inductive AgentCallResult where
  | returns (text : String)
  | raises
deriving Repr, DecidableEq

/-- `run_coach_agent` (agent.py).  With the API key absent it parses the
canned degraded text.  With the key present the external call chain runs:
its exception, if any, is NOT caught anywhere in `run_coach_agent` and
propagates to the caller (`.error ()`).  When the call returns text, the
source wraps `parse_agent_report(text)` in a `try` whose `except` branch
builds a fallback report; since `parse_agent_report` is total (it raises
nothing), that branch is unreachable and the model returns the parse
directly. -/
def run_coach_agent (apiKeyPresent : Bool) (call : AgentCallResult) :
    Except Unit AgentOutput :=
  if apiKeyPresent then
    match call with
    | .raises => .error ()
    | .returns text => .ok (parse_agent_report text)
  else .ok (parse_agent_report missingKeyRaw)

/- ===================== session.py / main.py: session machine ===================== -/

/-- `SignalState`-shaped dict passed to `run_coach_agent` by `make_move`
(main.py lines 189-195). -/
structure SignalsArg where
  think_times_ms : List Int
  blunder_streak : Int
  undo_attempts : Int
  rapid_after_blunder : Bool
  self_report : Option String
deriving Repr, DecidableEq

/-- The external collaborators of the session machine, abstracted as pure
functions of the board move stack:

* `parseUci st u` — `Board.parse_uci(u)` on the board reached by pushing
  `st` from the initial position: the parsed move (`some`), or `none` when
  python-chess raises.
* `isLegal st m` — `m in board.legal_moves`.
* `isGameOver st` — `board.is_game_over()`.
* `botMove st d` — `StockfishEngine.get_bot_move(board, d)` as a UCI string
  (`bot_move.uci()`; the pushed move and the appended string coincide).
* `runAgent ...` — the whole `run_coach_agent` call made by `make_move`:
  `.ok` with the report it returns, or `.error` when it raises (see
  `run_coach_agent` above: an exception from the agent call chain
  propagates). -/
structure ChessLib where
  parseUci : List String → String → Option String
  isLegal : List String → String → Bool
  isGameOver : List String → Bool
  botMove : List String → String → String
  runAgent : List String → List String → String → String → Int → SignalsArg →
    Except Unit AgentOutput

/-- `Session` (session.py), with the python-chess `Board` abstracted as its
move stack.  `captured_pieces` is the `{"white": [], "black": []}` dict;
clocks are plain integers. -/
structure Session where
  board : List String
  player_side : String
  bot_difficulty : String
  coach_verbosity : Int
  move_list : List String
  captured_white : List String
  captured_black : List String
  white_ms : Int
  black_ms : Int
  think_times_ms : List Int
  blunder_streak : Int
  undo_attempts : Int
  rapid_after_blunder : Bool
  self_report : Option String
  last_agent_output : Option AgentOutput
deriving Repr, DecidableEq

/-- `SESSION = Session()` (session.py): the dataclass defaults. -/
def initialSession : Session :=
  { board := [], player_side := "white", bot_difficulty := "medium"
    coach_verbosity := 2, move_list := [], captured_white := [], captured_black := []
    white_ms := 300000, black_ms := 300000, think_times_ms := []
    blunder_streak := 0, undo_attempts := 0, rapid_after_blunder := false
    self_report := none, last_agent_output := none }

/-- `Session.reset(side, difficulty, verbosity)` (session.py): every field is
re-assigned, so the result does not depend on the previous state. -/
def resetSession (side difficulty : String) (verbosity : Int) : Session :=
  { board := [], player_side := side, bot_difficulty := difficulty
    coach_verbosity := verbosity, move_list := [], captured_white := [], captured_black := []
    white_ms := 300000, black_ms := 300000, think_times_ms := []
    blunder_streak := 0, undo_attempts := 0, rapid_after_blunder := false
    self_report := none, last_agent_output := none }

/-- Error outcomes of the three endpoints (`HTTPException`s in main.py and an
exception escaping `run_coach_agent`).  `validation` carries the offending
field of a NewGame request. -/
inductive ApiError where
  | validation (field : String)
  | engineNotInitialized
  | invalidUci
  | illegalMove
  | agentRaised
deriving Repr, DecidableEq

/-- `NewGameRequest` (models.py). -/
structure NewGameRequest where
  side : String
  bot_difficulty : String
  coach_verbosity : Int
deriving Repr, DecidableEq

/-- `MoveRequest` (models.py). -/
structure MoveRequest where
  uci_move : String
  think_time_ms : Option Int
  self_report : Option String
deriving Repr, DecidableEq

/-- `new_game(req)` (main.py): validate side, difficulty and verbosity (each
failure leaves the session untouched), then `SESSION.reset(...)`; when the
human chose black the bot plays first, which needs the engine — the
engine-missing failure happens AFTER the reset.  Endpoints return the new
session value together with the HTTP outcome; the response body (a state
snapshot) is read-only derived data and is not modelled. -/
def new_game (lib : ChessLib) (engineInit : Bool) (s : Session)
    (req : NewGameRequest) : Session × Except ApiError Unit :=
  let side := pyLower req.side
  if side == "white" || side == "black" then
    let difficulty := pyLower req.bot_difficulty
    if difficulty == "easy" || difficulty == "medium" || difficulty == "hard" then
      if decide (1 ≤ req.coach_verbosity) && decide (req.coach_verbosity ≤ 3) then
        let s1 := resetSession side difficulty req.coach_verbosity
        if side == "black" then
          if engineInit then
            let bm := lib.botMove s1.board s1.bot_difficulty
            ({ s1 with board := s1.board ++ [bm], move_list := s1.move_list ++ [bm] }, .ok ())
          else (s1, .error .engineNotInitialized)
        else (s1, .ok ())
      else (s, .error (.validation "coach_verbosity"))
    else (s, .error (.validation "bot_difficulty"))
  else (s, .error (.validation "side"))

/-- `if req.self_report is not None: SESSION.self_report = req.self_report`
(main.py lines 142-143) — applied BEFORE the move is validated. -/
def applySelfReport (s : Session) (r : Option String) : Session :=
  match r with
  | some v => { s with self_report := some v }
  | none => s

/-- `if req.think_time_ms is not None: SESSION.think_times_ms.append(...)`
(main.py lines 156-157). -/
def recordThink (s : Session) (tt : Option Int) : Session :=
  match tt with
  | some t => { s with think_times_ms := s.think_times_ms ++ [t] }
  | none => s

/-- The signal update in `make_move` (main.py lines 162-167): the tracker is
invoked with `move_quality=None` and
`last_move_was_blunder=(SESSION.blunder_streak > 0)`. -/
def applySignals (s : Session) (tt : Option Int) : Session :=
  let upd := update_mental_signals_after_move none tt
    (decide (0 < s.blunder_streak)) s.blunder_streak
  { s with blunder_streak := upd.1, rapid_after_blunder := upd.2 }

/-- `SESSION.board.push(move); SESSION.move_list.append(uci)` (main.py lines
170-171): the board gets the parsed move, the move list the request's
stripped UCI string. -/
def pushMove (s : Session) (uciStr mv : String) : Session :=
  { s with board := s.board ++ [mv], move_list := s.move_list ++ [uciStr] }

/-- The bot reply in `make_move` (main.py lines 175-180): skipped when the
game is over after the user's move; otherwise the engine move is pushed and
appended (`bot_move.uci()`). -/
def botReply (lib : ChessLib) (s : Session) : Session × Option String :=
  if lib.isGameOver s.board then (s, none)
  else
    let bm := lib.botMove s.board s.bot_difficulty
    ({ s with board := s.board ++ [bm], move_list := s.move_list ++ [bm] }, some bm)

/-- The signals dict built in `make_move` from the (already updated) session
(main.py lines 189-195). -/
def signalsArg (s : Session) : SignalsArg :=
  ⟨s.think_times_ms, s.blunder_streak, s.undo_attempts, s.rapid_after_blunder, s.self_report⟩

/-- The `run_coach_agent(...)` call and report caching in `make_move`
(main.py lines 183-199): on success the report is cached and the bot move
returned; when the agent raises, the exception propagates with the moves
already applied and the cached report untouched. -/
def agentStep (lib : ChessLib) (sb : Session × Option String) :
    Session × Except ApiError (Option String) :=
  match lib.runAgent sb.1.board sb.1.move_list sb.1.player_side sb.1.bot_difficulty
      sb.1.coach_verbosity (signalsArg sb.1) with
  | .error _ => (sb.1, .error .agentRaised)
  | .ok out => ({ sb.1 with last_agent_output := some out }, .ok sb.2)

/-- `make_move(req)` (main.py): engine presence is checked first; then the
self-report is applied; then the stripped UCI is parsed and checked against
the legal moves (each failure returns with the session as mutated so far);
on success think time, signals, the user move, the optional bot reply and
the agent report are applied in the source's order.  The returned payload is
the bot move of the `MoveResponse`. -/
def make_move (lib : ChessLib) (engineInit : Bool) (s : Session)
    (req : MoveRequest) : Session × Except ApiError (Option String) :=
  if engineInit then
    let s1 := applySelfReport s req.self_report
    let uci := pyStrip req.uci_move
    match lib.parseUci s1.board uci with
    | none => (s1, .error .invalidUci)
    | some mv =>
      if lib.isLegal s1.board mv then
        agentStep lib (botReply lib
          (pushMove (applySignals (recordThink s1 req.think_time_ms) req.think_time_ms) uci mv))
      else (s1, .error .illegalMove)
  else (s, .error .engineNotInitialized)

/-- `undo(req)` (main.py): a no-op on an empty move list; otherwise one ply is
removed from both the board and the move list and the undo counter is
incremented; the cached report and the signals are kept. -/
def undo (s : Session) : Session × Except ApiError Unit :=
  if s.move_list.length = 0 then (s, .ok ())
  else
    ({ s with board := s.board.dropLast, move_list := s.move_list.dropLast
              undo_attempts := s.undo_attempts + 1 }, .ok ())

/-- One endpoint call, any request, engine initialized or not. -/
inductive Step (lib : ChessLib) : Session → Session → Prop where
  | newGame (e : Bool) (req : NewGameRequest) (s : Session) :
      Step lib s (new_game lib e s req).1
  | move (e : Bool) (req : MoveRequest) (s : Session) :
      Step lib s (make_move lib e s req).1
  | undoStep (s : Session) : Step lib s (undo s).1

/-- Session states reachable from the process-start session by any sequence
of endpoint calls. -/
inductive Reachable (lib : ChessLib) : Session → Prop where
  | init : Reachable lib initialSession
  | step {s s' : Session} : Reachable lib s → Step lib s s' → Reachable lib s'

/-- Replaying a UCI move list from a given stack: parse each move on the
position reached so far and push it (`none` when some move fails to parse).
This is what "replaying the move list from the initial position" denotes. -/
def replay (lib : ChessLib) (stack : List String) : List String → Option (List String)
  | [] => some stack
  | u :: rest =>
    match lib.parseUci stack u with
    | some m => replay lib (stack ++ [m]) rest
    | none => none

/- ===================== demo collaborators and spec-side notions ===================== -/

/-- A concrete report value for instantiating the abstract agent collaborator. -/
def dummyAgentOutput : AgentOutput :=
  { coach := { move_quality := "Good", bullets := [], pv := none }
    mental := { observed_signals := [], inference := "i", micro_reset_tip := "t" }
    position := { eval := "unknown", why := [], threats := [], plans_white := [], plans_black := [] }
    raw_text := none }

/-- A concrete report whose move-quality label is Blunder. -/
def blunderAgentOutput : AgentOutput :=
  { dummyAgentOutput with coach := { move_quality := "Blunder", bullets := [], pv := none } }

/-- A concrete chess collaborator on which every move parses to itself and is
legal, the game never ends, the engine plays g8f6, and the agent call
succeeds. -/
def toyLib : ChessLib :=
  { parseUci := fun _ u => some u
    isLegal := fun _ _ => true
    isGameOver := fun _ => false
    botMove := fun _ _ => "g8f6"
    runAgent := fun _ _ _ _ _ _ => .ok dummyAgentOutput }

/-- A concrete chess collaborator on which no move parses and the agent call
raises. -/
def rejectLib : ChessLib :=
  { parseUci := fun _ _ => none
    isLegal := fun _ _ => false
    isGameOver := fun _ => false
    botMove := fun _ _ => "0000"
    runAgent := fun _ _ _ _ _ _ => .error () }

/-- Modelled from the spec: the number of human moves in the history ("one
per human move, parallel in index to human moves only").  The game always
starts with White; plies alternate; when the human plays white the human
moves are plies 0, 2, ..., otherwise plies 1, 3, .... -/
def humanMoveCount (s : Session) : Nat :=
  if s.player_side = "white" then (s.move_list.length + 1) / 2 else s.move_list.length / 2

/-- Did this request pass the engine check, UCI parse and legality check of
`make_move`? -/
def moveAccepted (lib : ChessLib) (e : Bool) (s : Session) (req : MoveRequest) : Bool :=
  e && (match lib.parseUci s.board (pyStrip req.uci_move) with
        | none => false
        | some mv => lib.isLegal s.board mv)

/-- Did this request pass the side/difficulty/verbosity validation of
`new_game`? -/
def newGameValid (req : NewGameRequest) : Bool :=
  (pyLower req.side == "white" || pyLower req.side == "black") &&
  (pyLower req.bot_difficulty == "easy" || pyLower req.bot_difficulty == "medium" ||
    pyLower req.bot_difficulty == "hard") &&
  (decide (1 ≤ req.coach_verbosity) && decide (req.coach_verbosity ≤ 3))

/- ============ helper lemmas ============ -/

@[simp] lemma applySelfReport_board (s : Session) (r : Option String) :
    (applySelfReport s r).board = s.board := by cases r <;> rfl

@[simp] lemma applySelfReport_move_list (s : Session) (r : Option String) :
    (applySelfReport s r).move_list = s.move_list := by cases r <;> rfl

@[simp] lemma applySelfReport_think (s : Session) (r : Option String) :
    (applySelfReport s r).think_times_ms = s.think_times_ms := by cases r <;> rfl

@[simp] lemma applySelfReport_streak (s : Session) (r : Option String) :
    (applySelfReport s r).blunder_streak = s.blunder_streak := by cases r <;> rfl

@[simp] lemma applySelfReport_rapid (s : Session) (r : Option String) :
    (applySelfReport s r).rapid_after_blunder = s.rapid_after_blunder := by cases r <;> rfl

@[simp] lemma applySelfReport_undo (s : Session) (r : Option String) :
    (applySelfReport s r).undo_attempts = s.undo_attempts := by cases r <;> rfl

@[simp] lemma applySelfReport_last (s : Session) (r : Option String) :
    (applySelfReport s r).last_agent_output = s.last_agent_output := by cases r <;> rfl

@[simp] lemma recordThink_board (s : Session) (tt : Option Int) :
    (recordThink s tt).board = s.board := by cases tt <;> rfl

@[simp] lemma recordThink_move_list (s : Session) (tt : Option Int) :
    (recordThink s tt).move_list = s.move_list := by cases tt <;> rfl

@[simp] lemma recordThink_streak (s : Session) (tt : Option Int) :
    (recordThink s tt).blunder_streak = s.blunder_streak := by cases tt <;> rfl

@[simp] lemma recordThink_think (s : Session) (tt : Option Int) :
    (recordThink s tt).think_times_ms = s.think_times_ms ++ tt.toList := by
  cases tt <;> simp [recordThink, Option.toList]

@[simp] lemma applySignals_board (s : Session) (tt : Option Int) :
    (applySignals s tt).board = s.board := rfl

@[simp] lemma applySignals_move_list (s : Session) (tt : Option Int) :
    (applySignals s tt).move_list = s.move_list := rfl

@[simp] lemma applySignals_think (s : Session) (tt : Option Int) :
    (applySignals s tt).think_times_ms = s.think_times_ms := rfl

@[simp] lemma applySignals_streak (s : Session) (tt : Option Int) :
    (applySignals s tt).blunder_streak = s.blunder_streak := rfl

@[simp] lemma applySignals_rapid (s : Session) (tt : Option Int) :
    (applySignals s tt).rapid_after_blunder =
      (decide (0 < s.blunder_streak) &&
        (match tt with | some t => decide (t ≤ 1500) | none => false)) := rfl

@[simp] lemma pushMove_board (s : Session) (u m : String) :
    (pushMove s u m).board = s.board ++ [m] := rfl

@[simp] lemma pushMove_move_list (s : Session) (u m : String) :
    (pushMove s u m).move_list = s.move_list ++ [u] := rfl

@[simp] lemma pushMove_think (s : Session) (u m : String) :
    (pushMove s u m).think_times_ms = s.think_times_ms := rfl

@[simp] lemma pushMove_streak (s : Session) (u m : String) :
    (pushMove s u m).blunder_streak = s.blunder_streak := rfl

@[simp] lemma pushMove_rapid (s : Session) (u m : String) :
    (pushMove s u m).rapid_after_blunder = s.rapid_after_blunder := rfl

@[simp] lemma botReply_think (lib : ChessLib) (s : Session) :
    (botReply lib s).1.think_times_ms = s.think_times_ms := by
  simp only [botReply]; split <;> rfl

@[simp] lemma botReply_streak (lib : ChessLib) (s : Session) :
    (botReply lib s).1.blunder_streak = s.blunder_streak := by
  simp only [botReply]; split <;> rfl

@[simp] lemma botReply_rapid (lib : ChessLib) (s : Session) :
    (botReply lib s).1.rapid_after_blunder = s.rapid_after_blunder := by
  simp only [botReply]; split <;> rfl

@[simp] lemma agentStep_board (lib : ChessLib) (sb : Session × Option String) :
    (agentStep lib sb).1.board = sb.1.board := by
  simp only [agentStep]; split <;> rfl

@[simp] lemma agentStep_move_list (lib : ChessLib) (sb : Session × Option String) :
    (agentStep lib sb).1.move_list = sb.1.move_list := by
  simp only [agentStep]; split <;> rfl

@[simp] lemma agentStep_think (lib : ChessLib) (sb : Session × Option String) :
    (agentStep lib sb).1.think_times_ms = sb.1.think_times_ms := by
  simp only [agentStep]; split <;> rfl

@[simp] lemma agentStep_streak (lib : ChessLib) (sb : Session × Option String) :
    (agentStep lib sb).1.blunder_streak = sb.1.blunder_streak := by
  simp only [agentStep]; split <;> rfl

@[simp] lemma agentStep_rapid (lib : ChessLib) (sb : Session × Option String) :
    (agentStep lib sb).1.rapid_after_blunder = sb.1.rapid_after_blunder := by
  simp only [agentStep]; split <;> rfl

lemma botReply_cases (lib : ChessLib) (s : Session) :
    (botReply lib s).1 = s ∨
    (botReply lib s).1 =
      { s with board := s.board ++ [lib.botMove s.board s.bot_difficulty]
               move_list := s.move_list ++ [lib.botMove s.board s.bot_difficulty] } := by
  simp only [botReply]; split
  · exact Or.inl rfl
  · exact Or.inr rfl

/-- Case analysis on `make_move`, following the source's control flow. -/
lemma make_move_spec (lib : ChessLib) (e : Bool) (s : Session) (req : MoveRequest) :
    (e = false ∧ make_move lib e s req = (s, .error .engineNotInitialized)) ∨
    (e = true ∧ lib.parseUci s.board (pyStrip req.uci_move) = none ∧
      make_move lib e s req = (applySelfReport s req.self_report, .error .invalidUci)) ∨
    (e = true ∧ ∃ mv, lib.parseUci s.board (pyStrip req.uci_move) = some mv ∧
      lib.isLegal s.board mv = false ∧
      make_move lib e s req = (applySelfReport s req.self_report, .error .illegalMove)) ∨
    (e = true ∧ ∃ mv, lib.parseUci s.board (pyStrip req.uci_move) = some mv ∧
      lib.isLegal s.board mv = true ∧
      make_move lib e s req =
        agentStep lib (botReply lib
          (pushMove (applySignals (recordThink (applySelfReport s req.self_report)
            req.think_time_ms) req.think_time_ms) (pyStrip req.uci_move) mv))) := by
  cases e with
  | false => exact Or.inl ⟨rfl, rfl⟩
  | true =>
    have hb : (applySelfReport s req.self_report).board = s.board := by simp
    cases hp : lib.parseUci s.board (pyStrip req.uci_move) with
    | none =>
      refine Or.inr (Or.inl ⟨rfl, rfl, ?_⟩)
      simp only [make_move]
      rw [hb, hp]
      simp
    | some mv =>
      cases hl : lib.isLegal s.board mv with
      | false =>
        refine Or.inr (Or.inr (Or.inl ⟨rfl, mv, rfl, hl, ?_⟩))
        simp only [make_move]
        rw [hb, hp]
        simp [hl]
      | true =>
        refine Or.inr (Or.inr (Or.inr ⟨rfl, mv, rfl, hl, ?_⟩))
        simp only [make_move]
        rw [hb, hp]
        simp [hl]

lemma new_game_cases (lib : ChessLib) (e : Bool) (s : Session) (req : NewGameRequest) :
    (new_game lib e s req).1 = s ∨
    (new_game lib e s req).1 =
      resetSession (pyLower req.side) (pyLower req.bot_difficulty) req.coach_verbosity ∨
    (new_game lib e s req).1 =
      { resetSession (pyLower req.side) (pyLower req.bot_difficulty) req.coach_verbosity with
          board := [lib.botMove [] (pyLower req.bot_difficulty)]
          move_list := [lib.botMove [] (pyLower req.bot_difficulty)] } := by
  simp only [new_game]
  split
  · split
    · split
      · split
        · split
          · right; right; rfl
          · right; left; rfl
        · right; left; rfl
      · left; rfl
    · left; rfl
  · left; rfl

lemma undo_cases (s : Session) :
    (undo s).1 = s ∨
    (s.move_list ≠ [] ∧
      (undo s).1 = { s with
        board := s.board.dropLast
        move_list := s.move_list.dropLast
        undo_attempts := s.undo_attempts + 1 }) := by
  simp only [undo]
  split
  · exact Or.inl rfl
  · next h => exact Or.inr ⟨by simpa [List.length_eq_zero] using h, rfl⟩

lemma replay_snoc (lib : ChessLib) (u : String) :
    ∀ (ml st0 : List String), replay lib st0 (ml ++ [u]) =
      (replay lib st0 ml).bind fun st => (lib.parseUci st u).map fun m => st ++ [m]
  | [], st0 => by
      simp only [List.nil_append, replay]
      cases h : lib.parseUci st0 u <;> simp [h, replay]
  | v :: rest, st0 => by
      simp only [List.cons_append, replay]
      cases h : lib.parseUci st0 v <;> simp [h, replay_snoc lib u rest _]

lemma replay_snoc_inv (lib : ChessLib) (ml : List String) (u : String) (st : List String)
    (h : replay lib [] (ml ++ [u]) = some st) :
    ∃ st0 m, replay lib [] ml = some st0 ∧ lib.parseUci st0 u = some m ∧ st = st0 ++ [m] := by
  rw [replay_snoc] at h
  cases h0 : replay lib [] ml with
  | none => rw [h0] at h; simp at h
  | some st0 =>
    rw [h0] at h
    cases hm : lib.parseUci st0 u with
    | none => rw [Option.some_bind, hm] at h; simp at h
    | some m =>
      rw [Option.some_bind, hm] at h
      refine ⟨st0, m, rfl, hm, ?_⟩
      simpa using h.symm

lemma replay_make_move (lib : ChessLib) (e : Bool) (s : Session) (req : MoveRequest)
    (hbot : ∀ st d, lib.parseUci st (lib.botMove st d) = some (lib.botMove st d))
    (h : replay lib [] s.move_list = some s.board) :
    replay lib [] (make_move lib e s req).1.move_list = some (make_move lib e s req).1.board := by
  rcases make_move_spec lib e s req with ⟨-, heq⟩ | ⟨-, -, heq⟩ | ⟨-, mv, -, -, heq⟩ |
    ⟨-, mv, hp, -, heq⟩
  · rw [heq]; exact h
  · rw [heq]; simpa using h
  · rw [heq]; simpa using h
  · rw [heq]
    have hreplX : replay lib []
        (pushMove (applySignals (recordThink (applySelfReport s req.self_report)
          req.think_time_ms) req.think_time_ms) (pyStrip req.uci_move) mv).move_list =
        some (pushMove (applySignals (recordThink (applySelfReport s req.self_report)
          req.think_time_ms) req.think_time_ms) (pyStrip req.uci_move) mv).board := by
      simp only [pushMove_board, pushMove_move_list, applySignals_board, applySignals_move_list,
        recordThink_board, recordThink_move_list, applySelfReport_board, applySelfReport_move_list]
      rw [replay_snoc, h]
      simp [hp]
    simp only [agentStep_move_list, agentStep_board]
    rcases botReply_cases lib (pushMove (applySignals (recordThink (applySelfReport s
      req.self_report) req.think_time_ms) req.think_time_ms) (pyStrip req.uci_move) mv) with
      hbr | hbr
    · rw [hbr]; exact hreplX
    · rw [hbr]
      rw [replay_snoc, hreplX]
      simp [hbot]

lemma replay_new_game (lib : ChessLib) (e : Bool) (s : Session) (req : NewGameRequest)
    (hbot : ∀ st d, lib.parseUci st (lib.botMove st d) = some (lib.botMove st d))
    (h : replay lib [] s.move_list = some s.board) :
    replay lib [] (new_game lib e s req).1.move_list = some (new_game lib e s req).1.board := by
  rcases new_game_cases lib e s req with heq | heq | heq
  · rw [heq]; exact h
  · rw [heq]; rfl
  · rw [heq]
    show replay lib [] [lib.botMove [] (pyLower req.bot_difficulty)] = _
    simp [replay, hbot]

lemma replay_undo (lib : ChessLib) (s : Session)
    (h : replay lib [] s.move_list = some s.board) :
    replay lib [] (undo s).1.move_list = some (undo s).1.board := by
  rcases undo_cases s with heq | ⟨hne, heq⟩
  · rw [heq]; exact h
  · rw [heq]
    have hdec := List.dropLast_append_getLast hne
    rw [← hdec] at h
    rcases replay_snoc_inv lib _ _ _ h with ⟨st0, m, h0, -, hst⟩
    show replay lib [] s.move_list.dropLast = some s.board.dropLast
    rw [h0, hst]
    simp

@[simp] lemma recordThink_rapid (s : Session) (tt : Option Int) :
    (recordThink s tt).rapid_after_blunder = s.rapid_after_blunder := by cases tt <;> rfl

lemma think_new_game (lib : ChessLib) (e : Bool) (s : Session) (req : NewGameRequest) :
    (new_game lib e s req).1.think_times_ms =
      (if newGameValid req then [] else s.think_times_ms) := by
  simp only [new_game, newGameValid]
  split
  · split
    · split
      · next h1 h2 h3 =>
        simp only [h1, h2, h3, Bool.and_self, Bool.and_true, if_true]
        split
        · split <;> rfl
        · rfl
      · next h1 h2 h3 =>
        simp [h1, h2, h3]
    · next h1 h2 =>
      simp [h1, h2]
  · next h1 =>
    simp [h1]

lemma update_signals_snd (mq : Option String) (tt : Option Int) (lmb : Bool) (streak : Int) :
    (update_mental_signals_after_move mq tt lmb streak).2 =
      (lmb && (match tt with | some t => decide (t ≤ 1500) | none => false)) := by
  cases mq with
  | none => rfl
  | some q =>
    simp only [update_mental_signals_after_move]
    split_ifs <;> rfl

/- ===================== the claims ===================== -/

/-- C1: for every input text, including empty, malformed, or truncated text,
`parse_agent_report` returns a fully-formed structured report (it is a total
Lean function, so it never raises), its `move_quality` is always one of the
closed five-value set {Best, Good, Inaccuracy, Mistake, Blunder}, its
coaching bullets are capped at 3, and the label defaults to Good both when
no label token could be extracted and when the extracted token is outside
the five-value set. -/
theorem c1_parser_label_closed (text : String) :
    (parse_agent_report text).coach.move_quality ∈ allowedLabels ∧
    (parse_agent_report text).coach.bullets.length ≤ 3 ∧
    (labelCandidate text = none → (parse_agent_report text).coach.move_quality = "Good") ∧
    (∀ l, labelCandidate text = some l → l ∉ allowedLabels →
      (parse_agent_report text).coach.move_quality = "Good") := by
  refine ⟨?_, ?_, ?_, ?_⟩
  · show moveQualityLabel text ∈ allowedLabels
    unfold moveQualityLabel
    cases labelCandidate text with
    | none => simp [allowedLabels]
    | some l =>
      show (if l ∈ allowedLabels then l else "Good") ∈ allowedLabels
      by_cases hl : l ∈ allowedLabels
      · rw [if_pos hl]; exact hl
      · rw [if_neg hl]; decide
  · show ((coachBullets text).take 3).length ≤ 3
    simp
  · intro h
    show moveQualityLabel text = "Good"
    unfold moveQualityLabel
    rw [h]
  · intro l h hl
    show moveQualityLabel text = "Good"
    unfold moveQualityLabel
    rw [h]
    simp [hl]

/-- Witness for C1 at the empty input text. -/
theorem c1_witness : (parse_agent_report "").coach.move_quality = "Good" :=
  (c1_parser_label_closed "").2.2.1 rfl

/-- C2 counterexample: a SubmitMove whose UCI fails to parse is rejected, but
the session state is NOT left fully unchanged: the self-report supplied with
the rejected request has already been applied (the source assigns
`SESSION.self_report` before validating the move). -/
theorem c2_counterexample :
    (make_move rejectLib true initialSession ⟨"e2e5", none, some "calm"⟩).2 =
      .error .invalidUci ∧
    (make_move rejectLib true initialSession ⟨"e2e5", none, some "calm"⟩).1.self_report =
      some "calm" ∧
    initialSession.self_report = none :=
  ⟨rfl, rfl, rfl⟩

/-- C2 (amended): when the UCI string fails to parse or the move is not in
the legal-move set, the call fails with an illegal-move error and no part of
the session state is mutated EXCEPT the self-report: position, move list,
think times, blunder streak, rapid flag, undo counter and cached report are
unchanged, and the final state is exactly the input state with the
request's self-report applied. -/
theorem c2_amended_rejection (lib : ChessLib) (s : Session) (req : MoveRequest)
    (h : lib.parseUci s.board (pyStrip req.uci_move) = none ∨
      ∃ mv, lib.parseUci s.board (pyStrip req.uci_move) = some mv ∧
        lib.isLegal s.board mv = false) :
    ((make_move lib true s req).2 = .error .invalidUci ∨
      (make_move lib true s req).2 = .error .illegalMove) ∧
    (make_move lib true s req).1.board = s.board ∧
    (make_move lib true s req).1.move_list = s.move_list ∧
    (make_move lib true s req).1.think_times_ms = s.think_times_ms ∧
    (make_move lib true s req).1.blunder_streak = s.blunder_streak ∧
    (make_move lib true s req).1.rapid_after_blunder = s.rapid_after_blunder ∧
    (make_move lib true s req).1.undo_attempts = s.undo_attempts ∧
    (make_move lib true s req).1.last_agent_output = s.last_agent_output ∧
    (make_move lib true s req).1 = applySelfReport s req.self_report := by
  rcases make_move_spec lib true s req with ⟨he, -⟩ | ⟨-, hp, heq⟩ | ⟨-, mv, hp, hl, heq⟩ |
    ⟨-, mv, hp, hl, heq⟩
  · exact absurd he (by simp)
  · rw [heq]
    exact ⟨Or.inl rfl, by simp, by simp, by simp, by simp, by simp, by simp, by simp, rfl⟩
  · rw [heq]
    exact ⟨Or.inr rfl, by simp, by simp, by simp, by simp, by simp, by simp, by simp, rfl⟩
  · exfalso
    rcases h with h | ⟨mv2, hp2, hl2⟩
    · rw [hp] at h; exact Option.noConfusion h
    · rw [hp] at hp2
      cases hp2
      rw [hl] at hl2
      exact Bool.noConfusion hl2

/-- Witness for C2 (amended): rejected SubmitMove on a concrete library that fails to parse "e2e5". -/
theorem c2_witness :
    ((make_move rejectLib true initialSession ⟨"e2e5", some 800, some "tilted"⟩).2 =
        .error .invalidUci ∨
      (make_move rejectLib true initialSession ⟨"e2e5", some 800, some "tilted"⟩).2 =
        .error .illegalMove) ∧
    (make_move rejectLib true initialSession ⟨"e2e5", some 800, some "tilted"⟩).1.board =
      initialSession.board ∧
    (make_move rejectLib true initialSession ⟨"e2e5", some 800, some "tilted"⟩).1.move_list =
      initialSession.move_list ∧
    (make_move rejectLib true initialSession
        ⟨"e2e5", some 800, some "tilted"⟩).1.think_times_ms =
      initialSession.think_times_ms ∧
    (make_move rejectLib true initialSession
        ⟨"e2e5", some 800, some "tilted"⟩).1.blunder_streak =
      initialSession.blunder_streak ∧
    (make_move rejectLib true initialSession
        ⟨"e2e5", some 800, some "tilted"⟩).1.rapid_after_blunder =
      initialSession.rapid_after_blunder ∧
    (make_move rejectLib true initialSession
        ⟨"e2e5", some 800, some "tilted"⟩).1.undo_attempts =
      initialSession.undo_attempts ∧
    (make_move rejectLib true initialSession
        ⟨"e2e5", some 800, some "tilted"⟩).1.last_agent_output =
      initialSession.last_agent_output ∧
    (make_move rejectLib true initialSession ⟨"e2e5", some 800, some "tilted"⟩).1 =
      applySelfReport initialSession (some "tilted") :=
  c2_amended_rejection rejectLib initialSession ⟨"e2e5", some 800, some "tilted"⟩ (Or.inl rfl)

/-- C3: the move-quality classifier is a pure total function such that: if
either centipawn input is absent it returns Good with an absent swing;
otherwise, with swing = after - before, it returns Good when swing >= -30,
Inaccuracy when -90 <= swing <= -31, Mistake when -200 <= swing <= -91, and
Blunder when swing <= -201; and it never returns Best. -/
theorem c3_classifier_thresholds :
    (∀ a : Option Int, classify_move_quality_from_swing none a = ⟨"Good", none⟩) ∧
    (∀ b : Option Int, classify_move_quality_from_swing b none = ⟨"Good", none⟩) ∧
    (∀ b a : Int, -30 ≤ a - b →
      classify_move_quality_from_swing (some b) (some a) = ⟨"Good", some (a - b)⟩) ∧
    (∀ b a : Int, -90 ≤ a - b → a - b ≤ -31 →
      classify_move_quality_from_swing (some b) (some a) = ⟨"Inaccuracy", some (a - b)⟩) ∧
    (∀ b a : Int, -200 ≤ a - b → a - b ≤ -91 →
      classify_move_quality_from_swing (some b) (some a) = ⟨"Mistake", some (a - b)⟩) ∧
    (∀ b a : Int, a - b ≤ -201 →
      classify_move_quality_from_swing (some b) (some a) = ⟨"Blunder", some (a - b)⟩) ∧
    (∀ b a : Option Int, (classify_move_quality_from_swing b a).label ≠ "Best") := by
  refine ⟨fun a => rfl, fun b => by cases b <;> rfl, ?_, ?_, ?_, ?_, ?_⟩
  · intro b a h
    simp only [classify_move_quality_from_swing]
    rw [if_pos (by omega)]
  · intro b a h1 h2
    simp only [classify_move_quality_from_swing]
    rw [if_neg (by omega), if_pos (by omega)]
  · intro b a h1 h2
    simp only [classify_move_quality_from_swing]
    rw [if_neg (by omega), if_neg (by omega), if_pos (by omega)]
  · intro b a h
    simp only [classify_move_quality_from_swing]
    rw [if_neg (by omega), if_neg (by omega), if_neg (by omega)]
  · intro b a
    rcases b with - | b <;> rcases a with - | a <;> simp only [classify_move_quality_from_swing]
    · decide
    · decide
    · decide
    · split_ifs <;> simp

/-- Witness for C3 at the boundary swings -31 and -201. -/
theorem c3_witness :
    classify_move_quality_from_swing (some 0) (some (-31)) = ⟨"Inaccuracy", some (-31)⟩ ∧
    classify_move_quality_from_swing (some 0) (some (-201)) = ⟨"Blunder", some (-201)⟩ := by
  constructor
  · have h := c3_classifier_thresholds.2.2.2.1 0 (-31) (by norm_num) (by norm_num)
    simpa using h
  · have h := c3_classifier_thresholds.2.2.2.2.2.1 0 (-201) (by norm_num)
    simpa using h

/-- C4 counterexample: the claim states the output streak equals the input
streak for any label value other than the five known labels, but on the
label " Mistake" (which is none of the five) the code strips whitespace
first and increments the streak from 0 to 1. -/
theorem c4_counterexample :
    (update_mental_signals_after_move (some " Mistake") none false 0).1 = 1 ∧
    " Mistake" ∉ allowedLabels := by
  exact ⟨rfl, by decide⟩

/-- C4 (amended): the rapid-after-blunder output is true iff
previous-was-blunder is true and think-time is present and <= 1500 ms; the
streak is unchanged when the label is absent, incremented when the
WHITESPACE-STRIPPED label is Mistake or Blunder, reset to 0 when the
stripped label is Good, Best, or Inaccuracy, and unchanged for any other
stripped label value. -/
theorem c4_amended_tracker_rules (mq : Option String) (tt : Option Int) (lmb : Bool)
    (streak : Int) :
    ((update_mental_signals_after_move mq tt lmb streak).2 = true ↔
      lmb = true ∧ ∃ t, tt = some t ∧ t ≤ 1500) ∧
    (mq = none → (update_mental_signals_after_move mq tt lmb streak).1 = streak) ∧
    (∀ q, mq = some q → pyStrip q = "Mistake" ∨ pyStrip q = "Blunder" →
      (update_mental_signals_after_move mq tt lmb streak).1 = streak + 1) ∧
    (∀ q, mq = some q → pyStrip q = "Good" ∨ pyStrip q = "Best" ∨ pyStrip q = "Inaccuracy" →
      (update_mental_signals_after_move mq tt lmb streak).1 = 0) ∧
    (∀ q, mq = some q → pyStrip q ∉ allowedLabels →
      (update_mental_signals_after_move mq tt lmb streak).1 = streak) := by
  refine ⟨?_, ?_, ?_, ?_, ?_⟩
  · rw [update_signals_snd]
    cases tt with
    | none => simp
    | some t => simp [And.comm]
  · intro h
    rw [h]
    rfl
  · intro q hq hlab
    rw [hq]
    show (if pyStrip q = "Blunder" ∨ pyStrip q = "Mistake" then (streak + 1, _)
      else if pyStrip q = "Good" ∨ pyStrip q = "Best" ∨ pyStrip q = "Inaccuracy" then (0, _)
      else (streak, _)).1 = streak + 1
    rw [if_pos (hlab.elim Or.inr Or.inl)]
  · intro q hq hlab
    rw [hq]
    show (if pyStrip q = "Blunder" ∨ pyStrip q = "Mistake" then (streak + 1, _)
      else if pyStrip q = "Good" ∨ pyStrip q = "Best" ∨ pyStrip q = "Inaccuracy" then (0, _)
      else (streak, _)).1 = 0
    rcases hlab with h | h | h <;> rw [h] <;>
      rw [if_neg (by decide), if_pos (by decide)]
  · intro q hq hlab
    rw [hq]
    simp only [allowedLabels, List.mem_cons, List.not_mem_nil, or_false, not_or] at hlab
    obtain ⟨n1, n2, n3, n4, n5⟩ := hlab
    show (if pyStrip q = "Blunder" ∨ pyStrip q = "Mistake" then (streak + 1, _)
      else if pyStrip q = "Good" ∨ pyStrip q = "Best" ∨ pyStrip q = "Inaccuracy" then (0, _)
      else (streak, _)).1 = streak
    rw [if_neg (by tauto), if_neg (by tauto)]

/-- Witness for C4 (amended) at concrete tracker inputs, including the 1500/1501 boundary. -/
theorem c4_witness :
    (update_mental_signals_after_move (some "Blunder") (some 1500) true 3).1 = 4 ∧
    (update_mental_signals_after_move (some "Blunder") (some 1500) true 3).2 = true ∧
    (update_mental_signals_after_move (some "Blunder") (some 1501) true 3).2 = false := by
  refine ⟨?_, ?_, ?_⟩
  · have h := (c4_amended_tracker_rules (some "Blunder") (some 1500) true 3).2.2.1
      "Blunder" rfl (Or.inr (by decide))
    simpa using h
  · exact (c4_amended_tracker_rules (some "Blunder") (some 1500) true 3).1.mpr
      ⟨rfl, 1500, rfl, by norm_num⟩
  · by_cases hb : (update_mental_signals_after_move (some "Blunder") (some 1501) true 3).2 = true
    · rcases (c4_amended_tracker_rules (some "Blunder") (some 1501) true 3).1.mp hb with
        ⟨-, t, ht, hle⟩
      injection ht with ht2
      omega
    · simpa using hb

/-- C5 code bug: `make_move` always invokes the mental-signal tracker with
`move_quality=None` (the source comments "agent will compute later", but
nothing ever does), so even when the cached report of the previous turn
labels the move Blunder, a successful SubmitMove leaves the blunder streak
at 0 - although the tracker itself would increment it had the cached label
been passed (last conjunct). -/
theorem c5_code_bug_streak_never_updated :
    (make_move toyLib true { initialSession with last_agent_output := some blunderAgentOutput }
      ⟨"e2e4", some 900, none⟩).1.blunder_streak = 0 ∧
    (make_move toyLib true { initialSession with last_agent_output := some blunderAgentOutput }
      ⟨"e2e4", some 900, none⟩).2 = .ok (some "g8f6") ∧
    blunderAgentOutput.coach.move_quality = "Blunder" ∧
    (update_mental_signals_after_move (some "Blunder") (some 900) false 0).1 = 1 :=
  ⟨rfl, rfl, rfl, rfl⟩

/-- C6: in every session state reachable by any sequence of NewGame,
SubmitMove and Undo calls, replaying the stored move list from the initial
position reproduces the current board position exactly.  The hypothesis
states that the engine collaborator returns moves that parse to themselves
on the position they were produced for (i.e., legal engine moves), which is
part of the engine contract. -/
theorem c6_replay_reproduces_position (lib : ChessLib)
    (hbot : ∀ st d, lib.parseUci st (lib.botMove st d) = some (lib.botMove st d))
    (s : Session) (hs : Reachable lib s) :
    replay lib [] s.move_list = some s.board := by
  induction hs with
  | init => rfl
  | @step s0 s1 hr hstep ih =>
    cases hstep with
    | newGame e req => exact replay_new_game lib e s0 req hbot ih
    | move e req => exact replay_make_move lib e s0 req hbot ih
    | undoStep => exact replay_undo lib s0 ih

/-- Witness for C6: a concrete reachable state (NewGame as black, then one SubmitMove) whose move list replays to its board. -/
theorem c6_witness :
    replay toyLib [] ["g8f6", "e7e5", "g8f6"] = some ["g8f6", "e7e5", "g8f6"] :=
  c6_replay_reproduces_position toyLib (fun _ _ => rfl) _
    (Reachable.step
      (Reachable.step Reachable.init
        (Step.newGame true ⟨"black", "easy", 1⟩ initialSession))
      (Step.move true ⟨"e7e5", some 1200, some "calm"⟩
        (new_game toyLib true initialSession ⟨"black", "easy", 1⟩).1))

/-- C7 code bug: when the API key is absent `run_coach_agent` degrades to
the canned report, but when the key is present and the agent call raises,
the exception propagates out of `run_coach_agent` instead of degrading to
the canned report as the claim requires. -/
theorem c7_code_bug_agent_exception_propagates :
    run_coach_agent true .raises = .error () ∧
    run_coach_agent false .raises = .ok (parse_agent_report missingKeyRaw) :=
  ⟨rfl, rfl⟩

/-- C8 counterexample: NewGame with side black while the engine oracle is
uninitialized fails with engine-unavailable, but the previous session state
is NOT left intact: the session has already been reset (a previously played
move list is wiped to []). -/
theorem c8_counterexample :
    (new_game rejectLib false { initialSession with board := ["e2e4"], move_list := ["e2e4"] }
      ⟨"black", "easy", 1⟩).2 = .error .engineNotInitialized ∧
    (new_game rejectLib false { initialSession with board := ["e2e4"], move_list := ["e2e4"] }
      ⟨"black", "easy", 1⟩).1.move_list = [] ∧
    ({ initialSession with board := ["e2e4"], move_list := ["e2e4"]} : Session).move_list =
      ["e2e4"] :=
  ⟨rfl, rfl, rfl⟩

/-- C8 (amended): SubmitMove while the engine oracle is uninitialized fails
with engine-unavailable before any mutation; NewGame consults the engine
only when the chosen side is black, in which case an uninitialized engine
yields engine-unavailable AFTER the session has been reset; NewGame with
side white succeeds without consulting the engine at all. -/
theorem c8_amended_engine_unavailable (lib : ChessLib) (s : Session) (req : MoveRequest)
    (ng : NewGameRequest) :
    make_move lib false s req = (s, .error .engineNotInitialized) ∧
    (pyLower ng.side = "black" →
      (pyLower ng.bot_difficulty = "easy" ∨ pyLower ng.bot_difficulty = "medium" ∨
        pyLower ng.bot_difficulty = "hard") →
      1 ≤ ng.coach_verbosity → ng.coach_verbosity ≤ 3 →
      new_game lib false s ng =
        (resetSession "black" (pyLower ng.bot_difficulty) ng.coach_verbosity,
          .error .engineNotInitialized)) ∧
    (pyLower ng.side = "white" →
      (pyLower ng.bot_difficulty = "easy" ∨ pyLower ng.bot_difficulty = "medium" ∨
        pyLower ng.bot_difficulty = "hard") →
      1 ≤ ng.coach_verbosity → ng.coach_verbosity ≤ 3 →
      ∀ e : Bool, new_game lib e s ng =
        (resetSession "white" (pyLower ng.bot_difficulty) ng.coach_verbosity, .ok ())) := by
  refine ⟨rfl, ?_, ?_⟩
  · intro hside hdiff h1 h3
    rcases hdiff with hd | hd | hd <;>
      simp [new_game, hside, hd, h1, h3]
  · intro hside hdiff h1 h3 e
    rcases hdiff with hd | hd | hd <;>
      simp [new_game, hside, hd, h1, h3]

/-- Witness for C8 (amended): NewGame(black) with the engine uninitialized on a concrete session. -/
theorem c8_witness :
    new_game rejectLib false initialSession ⟨"black", "easy", 1⟩ =
      (resetSession "black" "easy" 1, .error .engineNotInitialized) :=
  (c8_amended_engine_unavailable rejectLib initialSession ⟨"x", none, none⟩
    ⟨"black", "easy", 1⟩).2.1 rfl (Or.inl rfl) (by norm_num) (by norm_num)

/-- C9 (amended): the think-times sequence gains exactly one entry per
accepted SubmitMove that included a think-time and is unchanged by rejected
or think-time-less SubmitMove calls; Undo never removes entries; NewGame
with valid parameters resets the sequence to empty (and leaves it unchanged
when validation fails). -/
theorem c9_amended_think_times (lib : ChessLib) (e : Bool) (s : Session)
    (req : MoveRequest) (ng : NewGameRequest) :
    (make_move lib e s req).1.think_times_ms =
      s.think_times_ms ++ (if moveAccepted lib e s req then req.think_time_ms.toList else []) ∧
    (undo s).1.think_times_ms = s.think_times_ms ∧
    (new_game lib e s ng).1.think_times_ms =
      (if newGameValid ng then [] else s.think_times_ms) := by
  refine ⟨?_, ?_, think_new_game lib e s ng⟩
  · rcases make_move_spec lib e s req with ⟨he, heq⟩ | ⟨he, hp, heq⟩ | ⟨he, mv, hp, hl, heq⟩ |
      ⟨he, mv, hp, hl, heq⟩
    · have hacc : moveAccepted lib e s req = false := by simp [moveAccepted, he]
      rw [heq, hacc]
      simp
    · have hacc : moveAccepted lib e s req = false := by simp [moveAccepted, hp]
      rw [heq, hacc]
      simp
    · have hacc : moveAccepted lib e s req = false := by simp [moveAccepted, hp, hl]
      rw [heq, hacc]
      simp
    · have hacc : moveAccepted lib e s req = true := by simp [moveAccepted, he, hp, hl]
      rw [heq, hacc]
      simp
  · rcases undo_cases s with heq | ⟨-, heq⟩ <;> rw [heq]

/-- C9 counterexample: a reachable state (one legal SubmitMove without a
think-time from a fresh session) in which one human move has been played
but the think-times sequence is empty, so its length differs from the
number of human moves. -/
theorem c9_counterexample :
    Reachable toyLib (make_move toyLib true initialSession ⟨"e2e4", none, none⟩).1 ∧
    (make_move toyLib true initialSession ⟨"e2e4", none, none⟩).1.think_times_ms.length ≠
      humanMoveCount (make_move toyLib true initialSession ⟨"e2e4", none, none⟩).1 :=
  ⟨Reachable.step Reachable.init (Step.move true ⟨"e2e4", none, none⟩ initialSession),
    by decide⟩

/-- C10: in every reachable session state the blunder streak is 0 and the
rapid-after-blunder flag is false: `make_move` always invokes the tracker
with an absent label and last-move-was-blunder computed as
blunder_streak > 0, so the streak can never become positive and the rapid
flag can never be set. -/
theorem c10_signals_always_zero (lib : ChessLib) (s : Session) (hs : Reachable lib s) :
    s.blunder_streak = 0 ∧ s.rapid_after_blunder = false := by
  induction hs with
  | init => exact ⟨rfl, rfl⟩
  | @step s0 s1 hr hstep ih =>
    cases hstep with
    | newGame e req =>
      rcases new_game_cases lib e s0 req with heq | heq | heq <;> rw [heq]
      · exact ih
      · exact ⟨rfl, rfl⟩
      · exact ⟨rfl, rfl⟩
    | move e req =>
      rcases make_move_spec lib e s0 req with ⟨-, heq⟩ | ⟨-, -, heq⟩ | ⟨-, mv, -, -, heq⟩ |
        ⟨-, mv, -, -, heq⟩ <;> rw [heq]
      · exact ih
      · simpa using ih
      · simpa using ih
      · constructor
        · simpa using ih.1
        · simp [ih.1]
    | undoStep =>
      rcases undo_cases s0 with heq | ⟨-, heq⟩ <;> rw [heq]
      · exact ih
      · exact ih

/-- Witness for C10: a concrete reachable state (NewGame as white, then one SubmitMove). -/
theorem c10_witness :
    ((make_move toyLib true (new_game toyLib true initialSession ⟨"white", "easy", 2⟩).1
      ⟨"e2e4", some 100, none⟩).1).blunder_streak = 0 ∧
    ((make_move toyLib true (new_game toyLib true initialSession ⟨"white", "easy", 2⟩).1
      ⟨"e2e4", some 100, none⟩).1).rapid_after_blunder = false :=
  c10_signals_always_zero toyLib _
    (Reachable.step
      (Reachable.step Reachable.init
        (Step.newGame true ⟨"white", "easy", 2⟩ initialSession))
      (Step.move true ⟨"e2e4", some 100, none⟩
        (new_game toyLib true initialSession ⟨"white", "easy", 2⟩).1))
